import Mathlib

/-!
Shallow embedding of the appnity_backend request-handling code (Django/DRF).

Each resource module follows the same pattern: a relational model, a
serializer with field-level validation, and list/detail/create views with
public-read / admin-write access control.  The embedding below translates,
per module, the fields and control flow that the verified properties touch:

* databases are lists of records; primary keys are `Nat`; timestamps are
  `Nat` clock values passed in explicitly (`now`);
* fallible persistence (storage-layer UNIQUE constraints) returns `Except`;
* the outbound mailer is a parameter `mailer : String -> Bool` giving the
  delivery outcome per recipient; every handler records its dispatch
  attempts in a `mail` log so that fire-and-forget behaviour is observable;
* HTTP responses are a record of status code, error-field names (the keys
  of a DRF 400 error body), and the success-body identifier fields.

Presentation-only aspects of the source (result ordering, pagination,
grouping dictionaries inside statistics bodies, response message strings)
are not modelled; no verified property mentions them.
-/

/-- Whitespace strip at both ends, as Python str.strip() used by the
serializers (contacts/serializers.py validate_message,
testimonials/serializers.py validate_content). -/
def pyStrip (s : String) : String :=
  String.mk (((s.data.dropWhile Char.isWhitespace).reverse.dropWhile
    Char.isWhitespace).reverse)

/-- Word characters of django.utils.text.slugify's first regex ([^\w\s-]
is removed), restricted to ASCII as in the titles at issue. -/
def isWordChar (c : Char) : Bool :=
  c.isAlphanum || c = '_'

/-- Characters collapsed by slugify's second regex [-\s]+ into one '-'. -/
def isSepChar (c : Char) : Bool :=
  c.isWhitespace || c = '-'

/-- Collapse of every run of separator characters into a single '-',
mirroring re.sub of [-\s]+ with '-' in django.utils.text.slugify. -/
def collapseSeps : List Char → List Char
  | [] => []
  | [c] => if isSepChar c then ['-'] else [c]
  | c :: d :: rest =>
      if isSepChar c && isSepChar d then collapseSeps (d :: rest)
      else (if isSepChar c then '-' else c) :: collapseSeps (d :: rest)

/-- Characters stripped at both ends by slugify's final .strip("-_"). -/
def isStripChar (c : Char) : Bool :=
  c = '-' || c = '_'

/-- Model of django.utils.text.slugify as called by BlogPost.save
(blogs/models.py line 93): lowercase, drop characters that are not word
characters, whitespace or hyphens, collapse separator runs to single
hyphens, strip leading and trailing hyphens and underscores. -/
def slugify (s : String) : String :=
  let lowered := s.data.map Char.toLower
  let kept := lowered.filter (fun c => isWordChar c || isSepChar c)
  let collapsed := collapseSeps kept
  String.mk (((collapsed.dropWhile isStripChar).reverse.dropWhile
    isStripChar).reverse)

/-- Next autoincrement primary key for a table whose current keys are
`ids` (the relational store assigns max+1). -/
def nextId (ids : List Nat) : Nat :=
  ids.foldr max 0 + 1

/-- Django's Avg aggregate: None over an empty collection, otherwise the
mean. -/
def djangoAvg (l : List Rat) : Option Rat :=
  match l with
  | [] => none
  | _ => some (l.sum / (l.length : Rat))

/-- Python's `x or 0` applied to an Avg result: None becomes 0 (a 0.0
mean is already the same value as 0). -/
def orZero (x : Option Rat) : Rat :=
  x.getD 0

/-- Caller identity, from users/models.py User: a role choice
(admin/editor/user), the superuser flag, and whether the request carries
credentials at all (Django's request.user.is_authenticated). -/
structure AppUser where
  role : String
  is_superuser : Bool
  is_authenticated : Bool
deriving Repr, DecidableEq

/-- The AppUser.is_editor property of users/models.py lines 51-52:
role in [admin, editor] or superuser. -/
def AppUser.is_editor (u : AppUser) : Bool :=
  (u.role = "admin" || u.role = "editor") || u.is_superuser

/-- Transport metadata of an incoming request, as read by the
serializers' get_client_ip helpers: the optional X-Forwarded-For header,
the remote address, and the user-agent header. -/
structure RequestMeta where
  x_forwarded_for : Option String
  remote_addr : String
  user_agent : String
deriving Repr, DecidableEq

/-- The get_client_ip helper repeated in every submission serializer:
first element of a truthy X-Forwarded-For, else REMOTE_ADDR. -/
def get_client_ip (r : RequestMeta) : String :=
  match r.x_forwarded_for with
  | some s => if s = "" then r.remote_addr else (s.splitOn ",").headD ""
  | none => r.remote_addr

/-- HTTP response as far as the verified properties observe it: status
code, the field names keyed in a 400 error body, and the identifier
fields of a success body (numeric id where the view returns one, the
email echoed by the newsletter subscribe view). -/
structure ApiResponse where
  status : Nat
  errorFields : List String
  body_id : Option Nat
  body_email : Option String
deriving Repr, DecidableEq

/-- One outbound send_mail call: the recipient and the outcome the mail
transport reported.  Every call in the source passes fail_silently=True
and discards the outcome. -/
structure MailAttempt where
  recipient : String
  delivered : Bool
deriving Repr, DecidableEq

/-- Stand-in for settings.DEFAULT_FROM_EMAIL (the settings module is
configuration outside the verified source; its concrete value is never
relevant to a property). -/
def default_from_email : String :=
  "DEFAULT_FROM_EMAIL"

/-- Contact record, contacts/models.py Contact. -/
structure Contact where
  id : Nat
  name : String
  email : String
  inquiry_type : String
  message : String
  status : String
  admin_notes : String
  ip_address : Option String
  user_agent : String
  created_at : Nat
  updated_at : Nat
deriving Repr, DecidableEq

/-- Declared inquiry_type choices of contacts/models.py. -/
def contactInquiryTypes : List String :=
  ["general", "product", "partnership", "career", "press"]

/-- Incoming POST body for the contact form; each serializer field may be
absent. -/
structure ContactPayload where
  name : Option String
  email : Option String
  inquiry_type : Option String
  message : Option String
deriving Repr, DecidableEq

/-- Field-level validation of ContactSerializer (fields name, email,
inquiry_type, message): name, email and message are required,
inquiry_type defaults to general and must be a declared choice when
present, and validate_message rejects a stripped message shorter than 10
characters.  Email format checking is delegated by the source to the
framework's EmailValidator and not modelled.  Returns the names of the
failing fields (the keys of the DRF error body). -/
def contactValidate (p : ContactPayload) : List String :=
  (if p.name.isNone then ["name"] else []) ++
  (if p.email.isNone then ["email"] else []) ++
  (match p.inquiry_type with
   | none => []
   | some t => if contactInquiryTypes.contains t then [] else ["inquiry_type"]) ++
  (match p.message with
   | none => ["message"]
   | some m => if (pyStrip m).length < 10 then ["message"] else [])

/-- Outcome of a contact-form POST: the response, the contacts table
afterwards, and the log of notification dispatch attempts. -/
structure ContactPostResult where
  resp : ApiResponse
  db : List Contact
  mail : List MailAttempt
deriving Repr, DecidableEq

/-- Contact row built by ContactSerializer.create from a validated
payload (contacts/serializers.py lines 18-25): payload fields,
validate_message's stripped message, the model defaults status 'new' and
empty admin_notes, and the captured request metadata. -/
def mkContact (req : RequestMeta) (p : ContactPayload) (db : List Contact)
    (now : Nat) : Contact :=
  { id := nextId (db.map Contact.id)
    name := p.name.getD ""
    email := p.email.getD ""
    inquiry_type := p.inquiry_type.getD "general"
    message := pyStrip (p.message.getD "")
    status := "new"
    admin_notes := ""
    ip_address := some (get_client_ip req)
    user_agent := req.user_agent
    created_at := now
    updated_at := now }

/-- ContactCreateView.post (contacts/views.py lines 35-48): validate; on
success persist one Contact with status 'new' and the captured request
metadata, attempt one admin notification email (fail_silently), and
answer 201 with the new id; on failure answer 400 with the field errors
and leave the table unchanged. -/
def contact_post (req : RequestMeta) (p : ContactPayload) (db : List Contact)
    (now : Nat) (mailer : String → Bool) : ContactPostResult :=
  let errs := contactValidate p
  if errs.isEmpty then
    let c : Contact := mkContact req p db now
    { resp := { status := 201, errorFields := [], body_id := some c.id,
                body_email := none }
      db := db ++ [c]
      mail := [{ recipient := default_from_email,
                 delivered := mailer default_from_email }] }
  else
    { resp := { status := 400, errorFields := errs, body_id := none,
                body_email := none }
      db := db
      mail := [] }

/-- Outcome of an admin list GET: status code and serialized result set. -/
structure ContactListResult where
  status : Nat
  results : List Contact
deriving Repr, DecidableEq

/-- ContactListView (contacts/views.py lines 82-109): IsAuthenticated
permission (401 without credentials), then get_queryset returns the
empty queryset for a non-editor caller and the full table for an
editor; the list GET itself answers 200 either way. -/
def contactListGet (u : AppUser) (db : List Contact) : ContactListResult :=
  if u.is_authenticated = false then { status := 401, results := [] }
  else if u.is_editor then { status := 200, results := db }
  else { status := 200, results := [] }

/-- Statistics body of contact_stats_view (the grouping dictionaries of
the source body are presentation and not modelled). -/
structure ContactStats where
  total_contacts : Nat
  new_contacts : Nat
  newsletter_subscribers : Nat
deriving Repr, DecidableEq

/-- Newsletter subscription record, newsletter/models.py
NewsletterSubscription. -/
structure Subscription where
  email : String
  is_active : Bool
  ip_address : Option String
  user_agent : String
  source : String
  subscribed_at : Nat
  unsubscribed_at : Option Nat
deriving Repr, DecidableEq

/-- Outcome of contact_stats_view. -/
structure ContactStatsResult where
  status : Nat
  stats : Option ContactStats
deriving Repr, DecidableEq

/-- contact_stats_view (contacts/views.py lines 262-296): IsAuthenticated
permission, explicit 403 for a caller without is_editor, otherwise 200
with the aggregate counts. -/
def contact_stats_view (u : AppUser) (contacts : List Contact)
    (subs : List Subscription) : ContactStatsResult :=
  if u.is_authenticated = false then { status := 401, stats := none }
  else if u.is_editor = false then { status := 403, stats := none }
  else
    { status := 200
      stats := some {
        total_contacts := contacts.length
        new_contacts := (contacts.filter (fun c => c.status == "new")).length
        newsletter_subscribers := (subs.filter (fun s => s.is_active)).length } }

/-- PATCH body accepted by ContactAdminSerializer: a JSON object that may
mention any serializer field; absent fields are not written. -/
structure ContactAdminPatch where
  name : Option String
  email : Option String
  inquiry_type : Option String
  message : Option String
  status : Option String
  admin_notes : Option String
  ip_address : Option String
  user_agent : Option String
deriving Repr, DecidableEq

/-- Application of an admin PATCH to a stored Contact, following
ContactAdminSerializer (contacts/serializers.py lines 39-49): every field
except status and admin_notes is in read_only_fields, so only those two
are written from the payload; Django's auto_now then refreshes
updated_at on save. -/
def applyContactAdminPatch (c : Contact) (p : ContactAdminPatch) (now : Nat) :
    Contact :=
  { c with
    status := p.status.getD c.status
    admin_notes := p.admin_notes.getD c.admin_notes
    updated_at := now }

/-- Fresh subscription row inserted by get_or_create when no row holds
the email: active, website source, captured request metadata
(newsletter/serializers.py lines 13-25, newsletter/models.py defaults). -/
def mkSubscription (req : RequestMeta) (email : String) (now : Nat) :
    Subscription :=
  { email := email
    is_active := true
    ip_address := some (get_client_ip req)
    user_agent := req.user_agent
    source := "website"
    subscribed_at := now
    unsubscribed_at := none }

/-- Outcome of a newsletter subscribe POST. -/
structure NewsletterPostResult where
  resp : ApiResponse
  db : List Subscription
  mail : List MailAttempt
deriving Repr, DecidableEq

/-- NewsletterSubscribeView.post together with
NewsletterSubscriptionSerializer.create (newsletter/views.py lines 34-47,
newsletter/serializers.py lines 13-31): a missing email is a 400;
otherwise get_or_create by email — reusing an existing row, calling
resubscribe() (is_active := true, unsubscribed_at := none,
newsletter/models.py lines 37-43) when the existing row is inactive, and
inserting a fresh active row when none exists — then one welcome email
attempt and a 201 echoing the email (the success body carries no numeric
identifier). -/
def newsletter_post (req : RequestMeta) (email? : Option String)
    (db : List Subscription) (now : Nat) (mailer : String → Bool) :
    NewsletterPostResult :=
  match email? with
  | none =>
      { resp := { status := 400, errorFields := ["email"], body_id := none,
                  body_email := none }
        db := db
        mail := [] }
  | some email =>
      let ok : ApiResponse :=
        { status := 201, errorFields := [], body_id := none,
          body_email := some email }
      let welcome : MailAttempt :=
        { recipient := email, delivered := mailer email }
      match db.find? (fun s => s.email == email) with
      | some s =>
          if s.is_active then
            { resp := ok, db := db, mail := [welcome] }
          else
            let s' : Subscription :=
              { s with is_active := true, unsubscribed_at := none }
            { resp := ok
              db := db.map (fun t => if t.email == email then s' else t)
              mail := [welcome] }
      | none =>
          { resp := ok, db := db ++ [mkSubscription req email now],
            mail := [welcome] }

/-- Subscriptions table after one subscribe call for `email`. -/
def subscribeStep (req : RequestMeta) (email : String) (now : Nat)
    (mailer : String → Bool) (db : List Subscription) : List Subscription :=
  (newsletter_post req (some email) db now mailer).db

/-- Subscriptions table after n repeated subscribe calls for `email`. -/
def subscribeN (req : RequestMeta) (email : String) (now : Nat)
    (mailer : String → Bool) : Nat → List Subscription → List Subscription
  | 0, db => db
  | Nat.succ n, db =>
      subscribeN req email now mailer n (subscribeStep req email now mailer db)

/-- Number of subscription rows holding a given email (the model's
unique=True constraint keeps this at most 1). -/
def countEmail (db : List Subscription) (email : String) : Nat :=
  db.countP (fun s => s.email == email)

/-- Job position, careers/models.py JobPosition (fields the verified
properties touch). -/
structure JobPosition where
  id : Nat
  title : String
  slug : String
  department : String
  status : String
deriving Repr, DecidableEq

/-- Uploaded resume file as validate_resume inspects it: size in bytes
and MIME content type. -/
structure ResumeFile where
  size : Nat
  content_type : String
deriving Repr, DecidableEq

/-- MIME types accepted by validate_resume
(careers/serializers.py lines 96-97). -/
def allowedResumeTypes : List String :=
  ["application/pdf", "application/msword",
   "application/vnd.openxmlformats-officedocument.wordprocessingml.document"]

/-- Incoming POST body for a job application; each serializer field may
be absent. -/
structure JobApplicationPayload where
  first_name : Option String
  last_name : Option String
  email : Option String
  phone : Option String
  location : Option String
  cover_letter : Option String
  resume : Option ResumeFile
  portfolio_url : Option String
  github_url : Option String
  linkedin_url : Option String
  years_of_experience : Option Nat
  current_salary : Option Nat
  expected_salary : Option Nat
deriving Repr, DecidableEq

/-- Field-level validation of JobApplicationSerializer: first_name,
last_name, email, cover_letter, resume and years_of_experience are
required (the remaining model fields are blank/null); validate_resume
(careers/serializers.py lines 90-101) rejects a file over 5MB, then a
content type outside the allow-list.  Email format checking is delegated
to the framework's EmailValidator and not modelled. -/
def jobApplicationValidate (p : JobApplicationPayload) : List String :=
  (if p.first_name.isNone then ["first_name"] else []) ++
  (if p.last_name.isNone then ["last_name"] else []) ++
  (if p.email.isNone then ["email"] else []) ++
  (if p.cover_letter.isNone then ["cover_letter"] else []) ++
  (match p.resume with
   | none => ["resume"]
   | some f =>
     if f.size > 5 * 1024 * 1024 then ["resume"]
     else if allowedResumeTypes.contains f.content_type then []
     else ["resume"]) ++
  (if p.years_of_experience.isNone then ["years_of_experience"] else [])

/-- Job application record, careers/models.py JobApplication. -/
structure JobApplication where
  id : Nat
  position_id : Nat
  first_name : String
  last_name : String
  email : String
  phone : String
  location : String
  cover_letter : String
  resume : ResumeFile
  portfolio_url : String
  github_url : String
  linkedin_url : String
  years_of_experience : Nat
  current_salary : Option Nat
  expected_salary : Option Nat
  status : String
  admin_notes : String
  ip_address : Option String
  user_agent : String
  created_at : Nat
  updated_at : Nat
deriving Repr, DecidableEq

/-- JobApplication row built by JobApplicationSerializer.create from a
validated payload (careers/serializers.py lines 103-113): payload
fields, the position taken from the URL context, the model defaults
status 'submitted' and empty admin_notes, and the captured request
metadata. -/
def mkJobApplication (req : RequestMeta) (pos : JobPosition)
    (p : JobApplicationPayload) (db : List JobApplication) (now : Nat) :
    JobApplication :=
  { id := nextId (db.map JobApplication.id)
    position_id := pos.id
    first_name := p.first_name.getD ""
    last_name := p.last_name.getD ""
    email := p.email.getD ""
    phone := p.phone.getD ""
    location := p.location.getD ""
    cover_letter := p.cover_letter.getD ""
    resume := p.resume.getD { size := 0, content_type := "" }
    portfolio_url := p.portfolio_url.getD ""
    github_url := p.github_url.getD ""
    linkedin_url := p.linkedin_url.getD ""
    years_of_experience := p.years_of_experience.getD 0
    current_salary := p.current_salary
    expected_salary := p.expected_salary
    status := "submitted"
    admin_notes := ""
    ip_address := some (get_client_ip req)
    user_agent := req.user_agent
    created_at := now
    updated_at := now }

/-- Outcome of a job-application POST.  validationRan records whether the
handler reached serializer.is_valid() at all (it does not on the 404
path). -/
structure JobApplicationPostResult where
  resp : ApiResponse
  db : List JobApplication
  mail : List MailAttempt
  validationRan : Bool
deriving Repr, DecidableEq

/-- JobApplicationCreateView.post (careers/views.py lines 139-161):
get_object_or_404 on JobPosition by slug AND status open — no open match
is a 404 before any validation or side effect; then validate; on success
persist one JobApplication with status 'submitted' and the captured
request metadata, attempt the applicant confirmation email and the admin
notification email (both fail_silently), and answer 201 with
application_id; on validation failure answer 400 with the field errors
and leave the table unchanged. -/
def job_application_post (req : RequestMeta) (positions : List JobPosition)
    (position_slug : String) (p : JobApplicationPayload)
    (db : List JobApplication) (now : Nat) (mailer : String → Bool) :
    JobApplicationPostResult :=
  match positions.find?
      (fun pos => pos.slug == position_slug && pos.status == "open") with
  | none =>
      { resp := { status := 404, errorFields := [], body_id := none,
                  body_email := none }
        db := db
        mail := []
        validationRan := false }
  | some pos =>
      let errs := jobApplicationValidate p
      if errs.isEmpty then
        let a : JobApplication := mkJobApplication req pos p db now
        { resp := { status := 201, errorFields := [], body_id := some a.id,
                    body_email := none }
          db := db ++ [a]
          mail := [{ recipient := a.email, delivered := mailer a.email },
                   { recipient := default_from_email,
                     delivered := mailer default_from_email }]
          validationRan := true }
      else
        { resp := { status := 400, errorFields := errs, body_id := none,
                    body_email := none }
          db := db
          mail := []
          validationRan := true }

/-- Outcome of the admin job-application list GET. -/
structure JobApplicationListResult where
  status : Nat
  results : List JobApplication
deriving Repr, DecidableEq

/-- JobApplicationListView (careers/views.py lines 244-271):
IsAuthenticated permission, empty queryset for a non-editor caller, full
table for an editor; 200 either way. -/
def jobApplicationListGet (u : AppUser) (db : List JobApplication) :
    JobApplicationListResult :=
  if u.is_authenticated = false then { status := 401, results := [] }
  else if u.is_editor then { status := 200, results := db }
  else { status := 200, results := [] }

/-- Statistics body of career_stats_view. -/
structure CareerStats where
  total_positions : Nat
  open_positions : Nat
  total_applications : Nat
  average_experience : Rat
deriving Repr, DecidableEq

/-- Outcome of career_stats_view. -/
structure CareerStatsResult where
  status : Nat
  stats : Option CareerStats
deriving Repr, DecidableEq

/-- career_stats_view (careers/views.py lines 342-382): IsAuthenticated
permission, explicit 403 for a caller without is_editor, otherwise 200
with the aggregates; average_experience is Avg over all applications'
years_of_experience with `or 0` mapping the empty-set None to 0. -/
def career_stats_view (u : AppUser) (positions : List JobPosition)
    (apps : List JobApplication) : CareerStatsResult :=
  if u.is_authenticated = false then { status := 401, stats := none }
  else if u.is_editor = false then { status := 403, stats := none }
  else
    { status := 200
      stats := some {
        total_positions := positions.length
        open_positions := (positions.filter (fun p => p.status == "open")).length
        total_applications := apps.length
        average_experience :=
          orZero (djangoAvg (apps.map (fun a => (a.years_of_experience : Rat)))) } }

/-- PATCH body accepted by JobApplicationAdminSerializer. -/
structure JobApplicationAdminPatch where
  first_name : Option String
  last_name : Option String
  email : Option String
  phone : Option String
  location : Option String
  cover_letter : Option String
  portfolio_url : Option String
  github_url : Option String
  linkedin_url : Option String
  years_of_experience : Option Nat
  status : Option String
  admin_notes : Option String
deriving Repr, DecidableEq

/-- Application of an admin PATCH to a stored JobApplication, following
JobApplicationAdminSerializer (careers/serializers.py lines 127-149):
every field except status and admin_notes is in read_only_fields, so only
those two are written from the payload; auto_now refreshes updated_at. -/
def applyJobApplicationAdminPatch (a : JobApplication)
    (p : JobApplicationAdminPatch) (now : Nat) : JobApplication :=
  { a with
    status := p.status.getD a.status
    admin_notes := p.admin_notes.getD a.admin_notes
    updated_at := now }

/-- Approved testimonial, testimonials/models.py Testimonial (fields the
verified properties touch). -/
structure Testimonial where
  id : Nat
  rating : Nat
  is_approved : Bool
  is_featured : Bool
deriving Repr, DecidableEq

/-- Incoming POST body for a testimonial submission; each serializer
field may be absent. -/
structure TestimonialSubmissionPayload where
  name : Option String
  email : Option String
  title : Option String
  company : Option String
  content : Option String
  rating : Option Nat
  product_name : Option String
  linkedin_url : Option String
  allow_contact : Option Bool
deriving Repr, DecidableEq

/-- Field-level validation of TestimonialSubmissionSerializer: name,
email, title, content and rating are required (company, product_name,
linkedin_url are blank, allow_contact has a default); the model's
MinValueValidator(1)/MaxValueValidator(5) bound the rating; and
validate_content (testimonials/serializers.py lines 45-48) rejects a
stripped content shorter than 20 characters. -/
def testimonialValidate (p : TestimonialSubmissionPayload) : List String :=
  (if p.name.isNone then ["name"] else []) ++
  (if p.email.isNone then ["email"] else []) ++
  (if p.title.isNone then ["title"] else []) ++
  (match p.content with
   | none => ["content"]
   | some c => if (pyStrip c).length < 20 then ["content"] else []) ++
  (match p.rating with
   | none => ["rating"]
   | some r => if r < 1 || 5 < r then ["rating"] else [])

/-- Testimonial submission record, testimonials/models.py
TestimonialSubmission. -/
structure TestimonialSubmission where
  id : Nat
  name : String
  email : String
  title : String
  company : String
  content : String
  rating : Nat
  product_name : String
  linkedin_url : Option String
  allow_contact : Bool
  is_approved : Bool
  admin_notes : String
  ip_address : Option String
  user_agent : String
  created_at : Nat
  updated_at : Nat
deriving Repr, DecidableEq

/-- TestimonialSubmission row built by
TestimonialSubmissionSerializer.create from a validated payload
(testimonials/serializers.py lines 50-57): payload fields,
validate_content's stripped content, the model defaults is_approved
false, allow_contact true and empty admin_notes, and the captured
request metadata. -/
def mkTestimonialSubmission (req : RequestMeta)
    (p : TestimonialSubmissionPayload) (db : List TestimonialSubmission)
    (now : Nat) : TestimonialSubmission :=
  { id := nextId (db.map TestimonialSubmission.id)
    name := p.name.getD ""
    email := p.email.getD ""
    title := p.title.getD ""
    company := p.company.getD ""
    content := pyStrip (p.content.getD "")
    rating := p.rating.getD 0
    product_name := p.product_name.getD ""
    linkedin_url := p.linkedin_url
    allow_contact := p.allow_contact.getD true
    is_approved := false
    admin_notes := ""
    ip_address := some (get_client_ip req)
    user_agent := req.user_agent
    created_at := now
    updated_at := now }

/-- Outcome of a testimonial submit POST. -/
structure TestimonialPostResult where
  resp : ApiResponse
  db : List TestimonialSubmission
  mail : List MailAttempt
deriving Repr, DecidableEq

/-- TestimonialSubmissionCreateView.post (testimonials/views.py lines
115-131): validate; on success persist one TestimonialSubmission with
is_approved false (the model default) and the captured request metadata,
attempt the submitter confirmation email and the admin notification
email (both fail_silently), and answer 201 with submission_id; on
validation failure answer 400 with the field errors and leave the table
unchanged. -/
def testimonial_post (req : RequestMeta) (p : TestimonialSubmissionPayload)
    (db : List TestimonialSubmission) (now : Nat) (mailer : String → Bool) :
    TestimonialPostResult :=
  let errs := testimonialValidate p
  if errs.isEmpty then
    let t : TestimonialSubmission := mkTestimonialSubmission req p db now
    { resp := { status := 201, errorFields := [], body_id := some t.id,
                body_email := none }
      db := db ++ [t]
      mail := [{ recipient := t.email, delivered := mailer t.email },
               { recipient := default_from_email,
                 delivered := mailer default_from_email }] }
  else
    { resp := { status := 400, errorFields := errs, body_id := none,
                body_email := none }
      db := db
      mail := [] }

/-- Statistics body of testimonial_stats_view. -/
structure TestimonialStats where
  total_testimonials : Nat
  pending_submissions : Nat
  average_rating : Rat
deriving Repr, DecidableEq

/-- Outcome of testimonial_stats_view. -/
structure TestimonialStatsResult where
  status : Nat
  stats : Option TestimonialStats
deriving Repr, DecidableEq

/-- testimonial_stats_view (testimonials/views.py lines 264-299):
IsAuthenticated permission, explicit 403 for a caller without is_editor,
otherwise 200; average_rating is Avg over approved testimonials' ratings
with `or 0` mapping the empty-set None to 0. -/
def testimonial_stats_view (u : AppUser) (ts : List Testimonial)
    (subs : List TestimonialSubmission) : TestimonialStatsResult :=
  if u.is_authenticated = false then { status := 401, stats := none }
  else if u.is_editor = false then { status := 403, stats := none }
  else
    { status := 200
      stats := some {
        total_testimonials := (ts.filter (fun t => t.is_approved)).length
        pending_submissions :=
          (subs.filter (fun s => s.is_approved = false)).length
        average_rating :=
          orZero (djangoAvg ((ts.filter (fun t => t.is_approved)).map
            (fun t => (t.rating : Rat)))) } }

/-- PATCH body accepted by TestimonialSubmissionAdminSerializer. -/
structure TestimonialSubmissionAdminPatch where
  name : Option String
  email : Option String
  title : Option String
  company : Option String
  content : Option String
  rating : Option Nat
  product_name : Option String
  linkedin_url : Option String
  allow_contact : Option Bool
  is_approved : Option Bool
  admin_notes : Option String
deriving Repr, DecidableEq

/-- Application of an admin PATCH to a stored TestimonialSubmission,
following TestimonialSubmissionAdminSerializer
(testimonials/serializers.py lines 71-86): every field except is_approved
and admin_notes is in read_only_fields, so only those two are written
from the payload; auto_now refreshes updated_at. -/
def applyTestimonialSubmissionAdminPatch (t : TestimonialSubmission)
    (p : TestimonialSubmissionAdminPatch) (now : Nat) : TestimonialSubmission :=
  { t with
    is_approved := p.is_approved.getD t.is_approved
    admin_notes := p.admin_notes.getD t.admin_notes
    updated_at := now }

/-- Blog post, blogs/models.py BlogPost (fields the verified properties
touch). -/
structure BlogPost where
  id : Nat
  title : String
  slug : String
  status : String
  published_at : Option Nat
  views_count : Nat
deriving Repr, DecidableEq

/-- BlogPost.save (blogs/models.py lines 91-100): derive the slug from
the title when none is set, and stamp published_at on the first save with
status published. -/
def blogSave (now : Nat) (p : BlogPost) : BlogPost :=
  let p1 := if p.slug = "" then { p with slug := slugify p.title } else p
  if p1.status == "published" && p1.published_at.isNone then
    { p1 with published_at := some now }
  else p1

/-- Insertion of a blog post into the table: model save() followed by the
storage layer's UNIQUE constraint on slug (blogs/models.py line 67),
which rejects a colliding row. -/
def insertBlogPost (db : List BlogPost) (p : BlogPost) (now : Nat) :
    Except String (List BlogPost) :=
  let p1 := blogSave now p
  if db.any (fun q => q.slug == p1.slug) then
    Except.error "UNIQUE constraint failed: blog_posts.slug"
  else
    Except.ok (db ++ [p1])

/-- Fresh in-memory blog post as built from a create payload (no slug
supplied, serializer default status draft). -/
def newBlogPost (id : Nat) (title slug status : String) : BlogPost :=
  { id := id, title := title, slug := slug, status := status,
    published_at := none, views_count := 0 }

/-- Creation of a blog post from a payload carrying a title and no slug:
the model save derives the slug and the storage layer enforces
uniqueness. -/
def createBlogPost (db : List BlogPost) (title : String) (now : Nat) :
    Except String (List BlogPost) :=
  insertBlogPost db (newBlogPost (nextId (db.map BlogPost.id)) title "" "draft") now

/-- BlogPostDetailView.get_queryset (blogs/views.py lines 77-80): an
authenticated editor sees every post, every other caller only published
ones. -/
def blogVisible (u : AppUser) (db : List BlogPost) : List BlogPost :=
  if u.is_authenticated && u.is_editor then db
  else db.filter (fun p => p.status == "published")

/-- Outcome of a blog detail GET. -/
structure BlogDetailResult where
  status : Nat
  body : Option BlogPost
  db : List BlogPost
deriving Repr, DecidableEq

/-- BlogPostDetailView.get (blogs/views.py lines 100-106): look the slug
up in the visible queryset — 404 when absent; on 200 the response body
serializes the stored post and increment_views then bumps its view
count. -/
def blog_detail_get (u : AppUser) (db : List BlogPost) (slug : String) :
    BlogDetailResult :=
  match (blogVisible u db).find? (fun p => p.slug == slug) with
  | none => { status := 404, body := none, db := db }
  | some p =>
      { status := 200
        body := some p
        db := db.map (fun q =>
          if q.id == p.id then { q with views_count := q.views_count + 1 }
          else q) }

/-- Portfolio project, portfolio/models.py PortfolioProject (fields the
verified properties touch; team_size is a non-null PositiveIntegerField;
the detail view looks projects up by slug). -/
structure PortfolioProject where
  id : Nat
  slug : String
  status : String
  team_size : Nat
  is_featured : Bool
deriving Repr, DecidableEq

/-- Statistics body of portfolio_stats_view. -/
structure PortfolioStats where
  total_projects : Nat
  completed_projects : Nat
  average_team_size : Rat
deriving Repr, DecidableEq

/-- Outcome of portfolio_stats_view. -/
structure PortfolioStatsResult where
  status : Nat
  stats : Option PortfolioStats
deriving Repr, DecidableEq

/-- portfolio_stats_view (portfolio/views.py lines 186-225):
IsAuthenticated permission, explicit 403 for a caller without is_editor,
otherwise 200; average_team_size is Avg over all projects' team_size
with `or 0` mapping the empty-set None to 0. -/
def portfolio_stats_view (u : AppUser) (projects : List PortfolioProject) :
    PortfolioStatsResult :=
  if u.is_authenticated = false then { status := 401, stats := none }
  else if u.is_editor = false then { status := 403, stats := none }
  else
    { status := 200
      stats := some {
        total_projects := projects.length
        completed_projects :=
          (projects.filter (fun p => p.status == "completed")).length
        average_team_size :=
          orZero (djangoAvg (projects.map (fun p => (p.team_size : Rat)))) } }

/-- Training course, training/models.py Course (fields the verified
properties touch; rating is a decimal, modelled as Rat; the detail view
looks courses up by slug). -/
structure Course where
  id : Nat
  slug : String
  status : String
  student_count : Nat
  rating : Rat
deriving Repr, DecidableEq

/-- Statistics body of course_stats_view. -/
structure CourseStats where
  total_courses : Nat
  active_courses : Nat
  total_students : Nat
  average_rating : Rat
deriving Repr, DecidableEq

/-- Outcome of course_stats_view. -/
structure CourseStatsResult where
  status : Nat
  stats : Option CourseStats
deriving Repr, DecidableEq

/-- course_stats_view (training/views.py lines 212-245): IsAuthenticated
permission, explicit 403 for a caller without is_editor, otherwise 200;
average_rating is Avg over all courses' ratings with `or 0` mapping the
empty-set None to 0. -/
def course_stats_view (u : AppUser) (courses : List Course) :
    CourseStatsResult :=
  if u.is_authenticated = false then { status := 401, stats := none }
  else if u.is_editor = false then { status := 403, stats := none }
  else
    { status := 200
      stats := some {
        total_courses := courses.length
        active_courses :=
          (courses.filter (fun c => c.status == "active")).length
        total_students := (courses.map Course.student_count).sum
        average_rating :=
          orZero (djangoAvg (courses.map Course.rating)) } }

/-- Product, products/models.py Product (fields the verified properties
touch; status choices are live, beta, development, coming_soon,
archived, only `live` being the public value). -/
structure Product where
  id : Nat
  name : String
  slug : String
  status : String
deriving Repr, DecidableEq

/-- Outcome of a detail GET that serializes one record or answers 404. -/
structure DetailResult (α : Type) where
  status : Nat
  body : Option α
deriving Repr, DecidableEq

/-- ProductDetailView.get (products/views.py lines 60-87): AllowAny on
GET over the UNFILTERED queryset Product.objects — the caller's identity
plays no role and no status filter is applied, so any caller, anonymous
included, receives 200 with the record whenever the slug exists,
whatever its status. -/
def product_detail_get (db : List Product) (slug : String) :
    DetailResult Product :=
  match db.find? (fun p => p.slug == slug) with
  | none => { status := 404, body := none }
  | some p => { status := 200, body := some p }

/-- JobPositionDetailView.get (careers/views.py lines 73-98): AllowAny
on GET over the unfiltered JobPosition.objects queryset — no status
filter, any caller sees closed/paused/filled positions with 200. -/
def job_position_detail_get (db : List JobPosition) (slug : String) :
    DetailResult JobPosition :=
  match db.find? (fun p => p.slug == slug) with
  | none => { status := 404, body := none }
  | some p => { status := 200, body := some p }

/-- PortfolioProjectDetailView.get (portfolio/views.py lines 68-94):
AllowAny on GET over the unfiltered PortfolioProject.objects queryset. -/
def portfolio_project_detail_get (db : List PortfolioProject)
    (slug : String) : DetailResult PortfolioProject :=
  match db.find? (fun p => p.slug == slug) with
  | none => { status := 404, body := none }
  | some p => { status := 200, body := some p }

/-- CourseDetailView.get (training/views.py lines 68-97): AllowAny on
GET over the unfiltered Course.objects queryset. -/
def course_detail_get (db : List Course) (slug : String) :
    DetailResult Course :=
  match db.find? (fun p => p.slug == slug) with
  | none => { status := 404, body := none }
  | some p => { status := 200, body := some p }

/-- Concrete authenticated caller holding the plain user role (neither
admin nor editor, not a superuser). -/
def nonAdminUser : AppUser :=
  { role := "user", is_superuser := false, is_authenticated := true }

/-- Concrete transport metadata used by witnesses. -/
def sampleReq : RequestMeta :=
  { x_forwarded_for := none, remote_addr := "203.0.113.7",
    user_agent := "curl/8.0" }

/-- Concrete authenticated caller holding the editor role. -/
def editorUser : AppUser :=
  { role := "editor", is_superuser := false, is_authenticated := true }

/-- Concrete anonymous caller (Django's AnonymousUser: no credentials). -/
def anonUser : AppUser :=
  { role := "", is_superuser := false, is_authenticated := false }

/-- Concrete open job position. -/
def openPosition : JobPosition :=
  { id := 1, title := "Backend Developer", slug := "backend-developer",
    department := "Engineering", status := "open" }

/-- Concrete closed job position (exists, but not open). -/
def closedPosition : JobPosition :=
  { id := 2, title := "Frontend Developer", slug := "frontend-developer",
    department := "Engineering", status := "closed" }

/-- Contact payload that passes every serializer check. -/
def validContactPayload : ContactPayload :=
  { name := some "A", email := some "a@b.com",
    inquiry_type := some "general",
    message := some "I would like to know more." }

/-- Contact payload whose message, 5 characters, is under the 10-character
minimum. -/
def shortContactPayload : ContactPayload :=
  { name := some "A", email := some "a@b.com",
    inquiry_type := some "general", message := some "short" }

/-- Job-application payload that passes every serializer check. -/
def validJobAppPayload : JobApplicationPayload :=
  { first_name := some "Ada", last_name := some "Lovelace",
    email := some "ada@example.com", phone := none, location := none,
    cover_letter := some "I build reliable backends.",
    resume := some { size := 100000, content_type := "application/pdf" },
    portfolio_url := none, github_url := none, linkedin_url := none,
    years_of_experience := some 7, current_salary := none,
    expected_salary := none }

/-- Job-application payload with no resume attached. -/
def noResumeJobAppPayload : JobApplicationPayload :=
  { validJobAppPayload with resume := none }

/-- Testimonial payload that passes every serializer check. -/
def validTestimonialPayload : TestimonialSubmissionPayload :=
  { name := some "A", email := some "a@b.com", title := some "CTO",
    company := none,
    content := some "Great product, the team shipped fast.",
    rating := some 5, product_name := none, linkedin_url := none,
    allow_contact := none }

/-- Testimonial payload missing the title and with a 12-character content,
under the 20-character minimum. -/
def badTestimonialPayload : TestimonialSubmissionPayload :=
  { name := some "A", email := some "a@b.com", title := none,
    company := none, content := some "Nice product", rating := some 4,
    product_name := none, linkedin_url := none, allow_contact := none }

/-- Concrete stored contact, used to exercise admin updates. -/
def sampleContact : Contact :=
  { id := 1, name := "A", email := "a@b.com", inquiry_type := "general",
    message := "I would like to know more.", status := "new",
    admin_notes := "", ip_address := some "203.0.113.7",
    user_agent := "curl/8.0", created_at := 0, updated_at := 0 }

/-- Admin PATCH body that mentions no field at all. -/
def emptyContactPatch : ContactAdminPatch :=
  { name := none, email := none, inquiry_type := none, message := none,
    status := none, admin_notes := none, ip_address := none,
    user_agent := none }

/-- Concrete inactive subscription (previously unsubscribed). -/
def inactiveSub : Subscription :=
  { email := "a@b.com", is_active := false,
    ip_address := some "203.0.113.7", user_agent := "curl/8.0",
    source := "website", subscribed_at := 0, unsubscribed_at := some 3 }

/-- Concrete draft blog post. -/
def draftPost : BlogPost :=
  { id := 1, title := "WIP", slug := "wip", status := "draft",
    published_at := none, views_count := 0 }

/-- Concrete archived product (status not the public value `live`). -/
def archivedProduct : Product :=
  { id := 1, name := "Old Tool", slug := "old-tool", status := "archived" }

/-- Concrete archived portfolio project. -/
def archivedProject : PortfolioProject :=
  { id := 1, slug := "legacy-site", status := "archived", team_size := 3,
    is_featured := false }

/-- Concrete archived training course. -/
def archivedCourse : Course :=
  { id := 1, slug := "old-course", status := "archived",
    student_count := 12, rating := 4 }

/-- Blog post persisted by a create carrying title Hello World!! and no
slug, over the table `db`. -/
def helloPost (db : List BlogPost) (now : Nat) : BlogPost :=
  blogSave now (newBlogPost (nextId (db.map BlogPost.id)) "Hello World!!" "" "draft")

/-- C1: claimed that every admin-only GET — submission-queue lists AND
statistics endpoints — answers 200 with an empty result for an
authenticated non-admin caller.  The statistics endpoints refute it:
contact_stats_view answers an explicit 403 for a caller without
is_editor (contacts/views.py lines 266-270). -/
theorem C1_counterexample :
    (contact_stats_view nonAdminUser [] []).status = 403 ∧
    (contact_stats_view nonAdminUser [] []).status ≠ 200 := by
  decide

/-- C1 (amended): for every authenticated caller who is neither admin nor
editor, the submission-queue list endpoints answer 200 with an empty
result set, while the statistics endpoints answer 403. -/
theorem C1_list_empty_stats_forbidden (u : AppUser) (contacts : List Contact)
    (subs : List Subscription) (positions : List JobPosition)
    (apps : List JobApplication) (ts : List Testimonial)
    (tsubs : List TestimonialSubmission)
    (hauth : u.is_authenticated = true) (hrole : u.is_editor = false) :
    contactListGet u contacts = { status := 200, results := [] } ∧
    jobApplicationListGet u apps = { status := 200, results := [] } ∧
    (contact_stats_view u contacts subs).status = 403 ∧
    (career_stats_view u positions apps).status = 403 ∧
    (testimonial_stats_view u ts tsubs).status = 403 := by
  refine ⟨?_, ?_, ?_, ?_, ?_⟩ <;>
    simp [contactListGet, jobApplicationListGet, contact_stats_view,
          career_stats_view, testimonial_stats_view, hauth, hrole]

/-- C1 witness: the amended statement at a concrete plain-role caller. -/
theorem C1_witness :
    contactListGet nonAdminUser [] = { status := 200, results := [] } ∧
    jobApplicationListGet nonAdminUser [] = { status := 200, results := [] } ∧
    (contact_stats_view nonAdminUser [] []).status = 403 ∧
    (career_stats_view nonAdminUser [] []).status = 403 ∧
    (testimonial_stats_view nonAdminUser [] []).status = 403 :=
  C1_list_empty_stats_forbidden nonAdminUser [] [] [] [] [] []
    (by decide) (by decide)

/-- C7: every admin statistics endpoint that computes an average (years
of experience, rating, team size) answers 200 with that average equal to
0 when the matching collection is empty — never an error or a null. -/
theorem C7_empty_average_is_zero (u : AppUser) (positions : List JobPosition)
    (ts : List Testimonial)
    (hauth : u.is_authenticated = true) (hrole : u.is_editor = true)
    (hts : ∀ t ∈ ts, t.is_approved = false) :
    (career_stats_view u positions []).status = 200 ∧
    (career_stats_view u positions []).stats.map
      CareerStats.average_experience = some 0 ∧
    (testimonial_stats_view u ts []).status = 200 ∧
    (testimonial_stats_view u ts []).stats.map
      TestimonialStats.average_rating = some 0 ∧
    (portfolio_stats_view u []).status = 200 ∧
    (portfolio_stats_view u []).stats.map
      PortfolioStats.average_team_size = some 0 ∧
    (course_stats_view u []).status = 200 ∧
    (course_stats_view u []).stats.map CourseStats.average_rating = some 0 := by
  have hfilter : ts.filter (fun t => t.is_approved) = [] := by
    rw [List.filter_eq_nil_iff]
    intro t ht
    simp [hts t ht]
  refine ⟨?_, ?_, ?_, ?_, ?_, ?_, ?_, ?_⟩ <;>
    simp [career_stats_view, testimonial_stats_view, portfolio_stats_view,
          course_stats_view, hauth, hrole, hfilter, djangoAvg, orZero]

/-- C7 witness: the statement at a concrete editor over empty tables. -/
theorem C7_witness :
    (career_stats_view editorUser [] []).status = 200 ∧
    (career_stats_view editorUser [] []).stats.map
      CareerStats.average_experience = some 0 ∧
    (testimonial_stats_view editorUser [] []).status = 200 ∧
    (testimonial_stats_view editorUser [] []).stats.map
      TestimonialStats.average_rating = some 0 ∧
    (portfolio_stats_view editorUser []).status = 200 ∧
    (portfolio_stats_view editorUser []).stats.map
      PortfolioStats.average_team_size = some 0 ∧
    (course_stats_view editorUser []).status = 200 ∧
    (course_stats_view editorUser []).stats.map
      CourseStats.average_rating = some 0 :=
  C7_empty_average_is_zero editorUser [] [] (by decide) (by decide)
    (by intro t ht; cases ht)

/-- C10: a job-application POST whose position slug matches no open
position — including a slug of an existing closed or draft position —
answers 404, persists nothing, runs no payload validation and attempts
no notification email. -/
theorem C10_no_open_position_404 (req : RequestMeta)
    (positions : List JobPosition) (slug : String)
    (p : JobApplicationPayload) (db : List JobApplication) (now : Nat)
    (mailer : String → Bool)
    (h : ∀ pos ∈ positions, ¬(pos.slug = slug ∧ pos.status = "open")) :
    job_application_post req positions slug p db now mailer =
      { resp := { status := 404, errorFields := [], body_id := none,
                  body_email := none },
        db := db, mail := [], validationRan := false } := by
  have hf : positions.find?
      (fun pos => pos.slug == slug && pos.status == "open") = none := by
    rw [List.find?_eq_none]
    intro pos hpos
    simpa using h pos hpos
  simp [job_application_post, hf]

/-- C10 witness: POSTing to an existing but closed position. -/
theorem C10_witness :
    job_application_post sampleReq [closedPosition] "frontend-developer"
      validJobAppPayload [] 0 (fun _ => true) =
      { resp := { status := 404, errorFields := [], body_id := none,
                  body_email := none },
        db := [], mail := [], validationRan := false } :=
  C10_no_open_position_404 sampleReq [closedPosition] "frontend-developer"
    validJobAppPayload [] 0 (fun _ => true) (by decide)

/-- C9: claimed that between the pre-state and the post-state of an admin
update only the status/approval field and the admin notes can differ.
Refuted: the auto-maintained updated_at timestamp also differs — an
admin PATCH at time 5 of a contact last saved at time 0, writing no
field at all, changes updated_at while leaving status and admin notes
unchanged (contacts/models.py line 33, auto_now=True). -/
theorem C9_counterexample :
    (applyContactAdminPatch sampleContact emptyContactPatch 5).updated_at ≠
      sampleContact.updated_at ∧
    (applyContactAdminPatch sampleContact emptyContactPatch 5).status =
      sampleContact.status ∧
    (applyContactAdminPatch sampleContact emptyContactPatch 5).admin_notes =
      sampleContact.admin_notes := by
  decide

/-- C9 (amended): for every submission-type record and every admin PATCH,
the submitter-provided fields and the captured request metadata
(ip_address, user_agent, created_at) are unchanged; only the
status/approval field, the admin notes and the auto-maintained
updated_at timestamp can differ between pre-state and post-state. -/
theorem C9_admin_update_frame (c : Contact) (pc : ContactAdminPatch)
    (nc : Nat) (a : JobApplication) (pa : JobApplicationAdminPatch)
    (na : Nat) (t : TestimonialSubmission)
    (pt : TestimonialSubmissionAdminPatch) (nt : Nat) :
    ((applyContactAdminPatch c pc nc).id = c.id ∧
     (applyContactAdminPatch c pc nc).name = c.name ∧
     (applyContactAdminPatch c pc nc).email = c.email ∧
     (applyContactAdminPatch c pc nc).inquiry_type = c.inquiry_type ∧
     (applyContactAdminPatch c pc nc).message = c.message ∧
     (applyContactAdminPatch c pc nc).ip_address = c.ip_address ∧
     (applyContactAdminPatch c pc nc).user_agent = c.user_agent ∧
     (applyContactAdminPatch c pc nc).created_at = c.created_at) ∧
    ((applyJobApplicationAdminPatch a pa na).id = a.id ∧
     (applyJobApplicationAdminPatch a pa na).position_id = a.position_id ∧
     (applyJobApplicationAdminPatch a pa na).first_name = a.first_name ∧
     (applyJobApplicationAdminPatch a pa na).last_name = a.last_name ∧
     (applyJobApplicationAdminPatch a pa na).email = a.email ∧
     (applyJobApplicationAdminPatch a pa na).phone = a.phone ∧
     (applyJobApplicationAdminPatch a pa na).location = a.location ∧
     (applyJobApplicationAdminPatch a pa na).cover_letter = a.cover_letter ∧
     (applyJobApplicationAdminPatch a pa na).resume = a.resume ∧
     (applyJobApplicationAdminPatch a pa na).portfolio_url = a.portfolio_url ∧
     (applyJobApplicationAdminPatch a pa na).github_url = a.github_url ∧
     (applyJobApplicationAdminPatch a pa na).linkedin_url = a.linkedin_url ∧
     (applyJobApplicationAdminPatch a pa na).years_of_experience =
       a.years_of_experience ∧
     (applyJobApplicationAdminPatch a pa na).current_salary =
       a.current_salary ∧
     (applyJobApplicationAdminPatch a pa na).expected_salary =
       a.expected_salary ∧
     (applyJobApplicationAdminPatch a pa na).ip_address = a.ip_address ∧
     (applyJobApplicationAdminPatch a pa na).user_agent = a.user_agent ∧
     (applyJobApplicationAdminPatch a pa na).created_at = a.created_at) ∧
    ((applyTestimonialSubmissionAdminPatch t pt nt).id = t.id ∧
     (applyTestimonialSubmissionAdminPatch t pt nt).name = t.name ∧
     (applyTestimonialSubmissionAdminPatch t pt nt).email = t.email ∧
     (applyTestimonialSubmissionAdminPatch t pt nt).title = t.title ∧
     (applyTestimonialSubmissionAdminPatch t pt nt).company = t.company ∧
     (applyTestimonialSubmissionAdminPatch t pt nt).content = t.content ∧
     (applyTestimonialSubmissionAdminPatch t pt nt).rating = t.rating ∧
     (applyTestimonialSubmissionAdminPatch t pt nt).product_name =
       t.product_name ∧
     (applyTestimonialSubmissionAdminPatch t pt nt).linkedin_url =
       t.linkedin_url ∧
     (applyTestimonialSubmissionAdminPatch t pt nt).allow_contact =
       t.allow_contact ∧
     (applyTestimonialSubmissionAdminPatch t pt nt).ip_address =
       t.ip_address ∧
     (applyTestimonialSubmissionAdminPatch t pt nt).user_agent =
       t.user_agent ∧
     (applyTestimonialSubmissionAdminPatch t pt nt).created_at =
       t.created_at) := by
  refine ⟨?_, ?_, ?_⟩ <;>
    simp [applyContactAdminPatch, applyJobApplicationAdminPatch,
          applyTestimonialSubmissionAdminPatch]

/-- C3: on every submission endpoint, a payload that fails validation —
a required field missing, or a content field under its minimum length
(10 characters for the contact message, 20 for the testimonial body,
encoded in contactValidate and testimonialValidate) — yields a 400
response whose error body keys exactly the failing fields, with no
record persisted and no notification attempted. -/
theorem C3_invalid_payload_rejected (req : RequestMeta) (now : Nat)
    (mailer : String → Bool) (pc : ContactPayload) (dbc : List Contact)
    (dbn : List Subscription) (positions : List JobPosition) (slug : String)
    (pos : JobPosition) (pj : JobApplicationPayload)
    (dbj : List JobApplication) (pt : TestimonialSubmissionPayload)
    (dbt : List TestimonialSubmission)
    (hc : contactValidate pc ≠ [])
    (hpos : positions.find?
      (fun q => q.slug == slug && q.status == "open") = some pos)
    (hj : jobApplicationValidate pj ≠ [])
    (ht : testimonialValidate pt ≠ []) :
    contact_post req pc dbc now mailer =
      { resp := { status := 400, errorFields := contactValidate pc,
                  body_id := none, body_email := none },
        db := dbc, mail := [] } ∧
    newsletter_post req none dbn now mailer =
      { resp := { status := 400, errorFields := ["email"],
                  body_id := none, body_email := none },
        db := dbn, mail := [] } ∧
    job_application_post req positions slug pj dbj now mailer =
      { resp := { status := 400, errorFields := jobApplicationValidate pj,
                  body_id := none, body_email := none },
        db := dbj, mail := [], validationRan := true } ∧
    testimonial_post req pt dbt now mailer =
      { resp := { status := 400, errorFields := testimonialValidate pt,
                  body_id := none, body_email := none },
        db := dbt, mail := [] } := by
  refine ⟨?_, ?_, ?_, ?_⟩
  · cases hcv : contactValidate pc with
    | nil => exact absurd hcv hc
    | cons a l => simp [contact_post, hcv]
  · simp [newsletter_post]
  · cases hjv : jobApplicationValidate pj with
    | nil => exact absurd hjv hj
    | cons a l => simp [job_application_post, hpos, hjv]
  · cases htv : testimonialValidate pt with
    | nil => exact absurd htv ht
    | cons a l => simp [testimonial_post, htv]

/-- C3 witness: a 5-character contact message is rejected naming
`message`; a missing newsletter email is rejected naming `email`; an
application to an open position with no resume is rejected naming
`resume`; a testimonial missing its title with a 12-character body is
rejected naming both `title` and `content`. -/
theorem C3_witness :
    contact_post sampleReq shortContactPayload [] 0 (fun _ => true) =
      { resp := { status := 400,
                  errorFields := contactValidate shortContactPayload,
                  body_id := none, body_email := none },
        db := [], mail := [] } ∧
    newsletter_post sampleReq none [] 0 (fun _ => true) =
      { resp := { status := 400, errorFields := ["email"],
                  body_id := none, body_email := none },
        db := [], mail := [] } ∧
    job_application_post sampleReq [openPosition] "backend-developer"
        noResumeJobAppPayload [] 0 (fun _ => true) =
      { resp := { status := 400,
                  errorFields := jobApplicationValidate noResumeJobAppPayload,
                  body_id := none, body_email := none },
        db := [], mail := [], validationRan := true } ∧
    testimonial_post sampleReq badTestimonialPayload [] 0 (fun _ => true) =
      { resp := { status := 400,
                  errorFields := testimonialValidate badTestimonialPayload,
                  body_id := none, body_email := none },
        db := [], mail := [] } :=
  C3_invalid_payload_rejected sampleReq 0 (fun _ => true)
    shortContactPayload [] [] [openPosition] "backend-developer"
    openPosition noResumeJobAppPayload [] badTestimonialPayload []
    (by decide) (by decide) (by decide) (by decide)

/-- C4: claimed for every submission endpoint that a valid submission
persists one record with the initial status and that the success body
carries a numeric identifier.  The newsletter endpoint refutes the
identifier half: its 201 body carries only a message and the subscribed
email (newsletter/views.py lines 41-45), no numeric identifier. -/
theorem C4_counterexample :
    (newsletter_post sampleReq (some "a@b.com") [] 0
      (fun _ => true)).resp.status = 201 ∧
    (newsletter_post sampleReq (some "a@b.com") [] 0
      (fun _ => true)).resp.body_id = none := by
  decide

/-- C4 (amended): a valid submission on the contact, job-application and
testimonial endpoints persists exactly one new record whose status
equals the declared initial state ('new', 'submitted', unapproved) and
answers 201 with a numeric identifier referencing it; the newsletter
endpoint answers 201 carrying the subscribed email instead of a numeric
identifier, persisting one new active record when the email is fresh. -/
theorem C4_success_persists_one_record (req : RequestMeta) (now : Nat)
    (mailer : String → Bool) (pc : ContactPayload) (dbc : List Contact)
    (email : String) (dbn : List Subscription)
    (positions : List JobPosition) (slug : String) (pos : JobPosition)
    (pj : JobApplicationPayload) (dbj : List JobApplication)
    (pt : TestimonialSubmissionPayload) (dbt : List TestimonialSubmission)
    (hc : contactValidate pc = [])
    (hpos : positions.find?
      (fun q => q.slug == slug && q.status == "open") = some pos)
    (hj : jobApplicationValidate pj = [])
    (ht : testimonialValidate pt = [])
    (hfresh : dbn.find? (fun s => s.email == email) = none) :
    ((contact_post req pc dbc now mailer).db =
       dbc ++ [mkContact req pc dbc now] ∧
     (mkContact req pc dbc now).status = "new" ∧
     (contact_post req pc dbc now mailer).resp.status = 201 ∧
     (contact_post req pc dbc now mailer).resp.body_id =
       some (mkContact req pc dbc now).id) ∧
    ((job_application_post req positions slug pj dbj now mailer).db =
       dbj ++ [mkJobApplication req pos pj dbj now] ∧
     (mkJobApplication req pos pj dbj now).status = "submitted" ∧
     (job_application_post req positions slug pj dbj now mailer).resp.status
       = 201 ∧
     (job_application_post req positions slug pj dbj now mailer).resp.body_id
       = some (mkJobApplication req pos pj dbj now).id) ∧
    ((testimonial_post req pt dbt now mailer).db =
       dbt ++ [mkTestimonialSubmission req pt dbt now] ∧
     (mkTestimonialSubmission req pt dbt now).is_approved = false ∧
     (testimonial_post req pt dbt now mailer).resp.status = 201 ∧
     (testimonial_post req pt dbt now mailer).resp.body_id =
       some (mkTestimonialSubmission req pt dbt now).id) ∧
    ((newsletter_post req (some email) dbn now mailer).resp.status = 201 ∧
     (newsletter_post req (some email) dbn now mailer).resp.body_email =
       some email ∧
     (newsletter_post req (some email) dbn now mailer).resp.body_id = none ∧
     (newsletter_post req (some email) dbn now mailer).db =
       dbn ++ [mkSubscription req email now] ∧
     (mkSubscription req email now).is_active = true) := by
  refine ⟨⟨?_, ?_, ?_, ?_⟩, ⟨?_, ?_, ?_, ?_⟩, ⟨?_, ?_, ?_, ?_⟩,
          ?_, ?_, ?_, ?_, ?_⟩ <;>
    simp [contact_post, job_application_post, testimonial_post,
          newsletter_post, hc, hpos, hj, ht, hfresh, mkContact,
          mkJobApplication, mkTestimonialSubmission, mkSubscription]

/-- C4 witness: the amended statement at concrete valid payloads over
empty tables. -/
theorem C4_witness :
    ((contact_post sampleReq validContactPayload [] 0 (fun _ => true)).db =
       [] ++ [mkContact sampleReq validContactPayload [] 0] ∧
     (mkContact sampleReq validContactPayload [] 0).status = "new" ∧
     (contact_post sampleReq validContactPayload [] 0
       (fun _ => true)).resp.status = 201 ∧
     (contact_post sampleReq validContactPayload [] 0
       (fun _ => true)).resp.body_id =
       some (mkContact sampleReq validContactPayload [] 0).id) ∧
    ((job_application_post sampleReq [openPosition] "backend-developer"
        validJobAppPayload [] 0 (fun _ => true)).db =
       [] ++ [mkJobApplication sampleReq openPosition validJobAppPayload [] 0] ∧
     (mkJobApplication sampleReq openPosition validJobAppPayload [] 0).status
       = "submitted" ∧
     (job_application_post sampleReq [openPosition] "backend-developer"
        validJobAppPayload [] 0 (fun _ => true)).resp.status = 201 ∧
     (job_application_post sampleReq [openPosition] "backend-developer"
        validJobAppPayload [] 0 (fun _ => true)).resp.body_id =
       some (mkJobApplication sampleReq openPosition validJobAppPayload [] 0).id) ∧
    ((testimonial_post sampleReq validTestimonialPayload [] 0
        (fun _ => true)).db =
       [] ++ [mkTestimonialSubmission sampleReq validTestimonialPayload [] 0] ∧
     (mkTestimonialSubmission sampleReq validTestimonialPayload [] 0).is_approved
       = false ∧
     (testimonial_post sampleReq validTestimonialPayload [] 0
        (fun _ => true)).resp.status = 201 ∧
     (testimonial_post sampleReq validTestimonialPayload [] 0
        (fun _ => true)).resp.body_id =
       some (mkTestimonialSubmission sampleReq validTestimonialPayload [] 0).id) ∧
    ((newsletter_post sampleReq (some "a@b.com") [] 0
        (fun _ => true)).resp.status = 201 ∧
     (newsletter_post sampleReq (some "a@b.com") [] 0
        (fun _ => true)).resp.body_email = some "a@b.com" ∧
     (newsletter_post sampleReq (some "a@b.com") [] 0
        (fun _ => true)).resp.body_id = none ∧
     (newsletter_post sampleReq (some "a@b.com") [] 0 (fun _ => true)).db =
       [] ++ [mkSubscription sampleReq "a@b.com" 0] ∧
     (mkSubscription sampleReq "a@b.com" 0).is_active = true) :=
  C4_success_persists_one_record sampleReq 0 (fun _ => true)
    validContactPayload [] "a@b.com" [] [openPosition] "backend-developer"
    openPosition validJobAppPayload [] validTestimonialPayload []
    (by decide) (by decide) (by decide) (by decide) (by decide)

/-- C8: on every submission endpoint the notification dispatch is
fire-and-forget — the response and the persisted table are identical
under any two mail-transport outcomes, a valid submission still answers
201 with its identifier when every send fails, and each notification is
attempted exactly once (one admin email for contact, one welcome email
for newsletter, confirmation plus admin email for job application and
testimonial), never retried. -/
theorem C8_notification_failure_invisible (req : RequestMeta) (now : Nat)
    (m1 m2 : String → Bool) (pc : ContactPayload) (dbc : List Contact)
    (email : String) (dbn : List Subscription)
    (positions : List JobPosition) (slug : String) (pos : JobPosition)
    (pj : JobApplicationPayload) (dbj : List JobApplication)
    (pt : TestimonialSubmissionPayload) (dbt : List TestimonialSubmission)
    (hc : contactValidate pc = [])
    (hpos : positions.find?
      (fun q => q.slug == slug && q.status == "open") = some pos)
    (hj : jobApplicationValidate pj = [])
    (ht : testimonialValidate pt = []) :
    ((contact_post req pc dbc now m1).resp =
       (contact_post req pc dbc now m2).resp ∧
     (contact_post req pc dbc now m1).db =
       (contact_post req pc dbc now m2).db ∧
     (contact_post req pc dbc now m1).resp.status = 201 ∧
     (contact_post req pc dbc now m1).resp.body_id =
       some (mkContact req pc dbc now).id ∧
     (contact_post req pc dbc now m1).db = dbc ++ [mkContact req pc dbc now] ∧
     (contact_post req pc dbc now m1).mail.length = 1) ∧
    ((newsletter_post req (some email) dbn now m1).resp =
       (newsletter_post req (some email) dbn now m2).resp ∧
     (newsletter_post req (some email) dbn now m1).db =
       (newsletter_post req (some email) dbn now m2).db ∧
     (newsletter_post req (some email) dbn now m1).resp.status = 201 ∧
     (newsletter_post req (some email) dbn now m1).mail.length = 1) ∧
    ((job_application_post req positions slug pj dbj now m1).resp =
       (job_application_post req positions slug pj dbj now m2).resp ∧
     (job_application_post req positions slug pj dbj now m1).db =
       (job_application_post req positions slug pj dbj now m2).db ∧
     (job_application_post req positions slug pj dbj now m1).resp.status
       = 201 ∧
     (job_application_post req positions slug pj dbj now m1).resp.body_id =
       some (mkJobApplication req pos pj dbj now).id ∧
     (job_application_post req positions slug pj dbj now m1).db =
       dbj ++ [mkJobApplication req pos pj dbj now] ∧
     (job_application_post req positions slug pj dbj now m1).mail.length
       = 2) ∧
    ((testimonial_post req pt dbt now m1).resp =
       (testimonial_post req pt dbt now m2).resp ∧
     (testimonial_post req pt dbt now m1).db =
       (testimonial_post req pt dbt now m2).db ∧
     (testimonial_post req pt dbt now m1).resp.status = 201 ∧
     (testimonial_post req pt dbt now m1).resp.body_id =
       some (mkTestimonialSubmission req pt dbt now).id ∧
     (testimonial_post req pt dbt now m1).db =
       dbt ++ [mkTestimonialSubmission req pt dbt now] ∧
     (testimonial_post req pt dbt now m1).mail.length = 2) := by
  refine ⟨⟨?_, ?_, ?_, ?_, ?_, ?_⟩, ⟨?_, ?_, ?_, ?_⟩,
          ⟨?_, ?_, ?_, ?_, ?_, ?_⟩, ⟨?_, ?_, ?_, ?_, ?_, ?_⟩⟩ <;>
  · first
    | (simp [contact_post, job_application_post, testimonial_post,
             hc, hpos, hj, ht])
    | (cases hf : dbn.find? (fun s => s.email == email) with
       | none => simp [newsletter_post, hf]
       | some s =>
           by_cases ha : s.is_active <;> simp [newsletter_post, hf, ha])

/-- C8 witness: the statement at concrete valid payloads, comparing an
all-failing mail transport with an all-succeeding one. -/
theorem C8_witness :
    ((contact_post sampleReq validContactPayload [] 0 (fun _ => false)).resp =
       (contact_post sampleReq validContactPayload [] 0 (fun _ => true)).resp ∧
     (contact_post sampleReq validContactPayload [] 0 (fun _ => false)).db =
       (contact_post sampleReq validContactPayload [] 0 (fun _ => true)).db ∧
     (contact_post sampleReq validContactPayload [] 0
       (fun _ => false)).resp.status = 201 ∧
     (contact_post sampleReq validContactPayload [] 0
       (fun _ => false)).resp.body_id =
       some (mkContact sampleReq validContactPayload [] 0).id ∧
     (contact_post sampleReq validContactPayload [] 0 (fun _ => false)).db =
       [] ++ [mkContact sampleReq validContactPayload [] 0] ∧
     (contact_post sampleReq validContactPayload [] 0
       (fun _ => false)).mail.length = 1) ∧
    ((newsletter_post sampleReq (some "a@b.com") [] 0 (fun _ => false)).resp =
       (newsletter_post sampleReq (some "a@b.com") [] 0 (fun _ => true)).resp ∧
     (newsletter_post sampleReq (some "a@b.com") [] 0 (fun _ => false)).db =
       (newsletter_post sampleReq (some "a@b.com") [] 0 (fun _ => true)).db ∧
     (newsletter_post sampleReq (some "a@b.com") [] 0
       (fun _ => false)).resp.status = 201 ∧
     (newsletter_post sampleReq (some "a@b.com") [] 0
       (fun _ => false)).mail.length = 1) ∧
    ((job_application_post sampleReq [openPosition] "backend-developer"
        validJobAppPayload [] 0 (fun _ => false)).resp =
       (job_application_post sampleReq [openPosition] "backend-developer"
        validJobAppPayload [] 0 (fun _ => true)).resp ∧
     (job_application_post sampleReq [openPosition] "backend-developer"
        validJobAppPayload [] 0 (fun _ => false)).db =
       (job_application_post sampleReq [openPosition] "backend-developer"
        validJobAppPayload [] 0 (fun _ => true)).db ∧
     (job_application_post sampleReq [openPosition] "backend-developer"
        validJobAppPayload [] 0 (fun _ => false)).resp.status = 201 ∧
     (job_application_post sampleReq [openPosition] "backend-developer"
        validJobAppPayload [] 0 (fun _ => false)).resp.body_id =
       some (mkJobApplication sampleReq openPosition validJobAppPayload [] 0).id ∧
     (job_application_post sampleReq [openPosition] "backend-developer"
        validJobAppPayload [] 0 (fun _ => false)).db =
       [] ++ [mkJobApplication sampleReq openPosition validJobAppPayload [] 0] ∧
     (job_application_post sampleReq [openPosition] "backend-developer"
        validJobAppPayload [] 0 (fun _ => false)).mail.length = 2) ∧
    ((testimonial_post sampleReq validTestimonialPayload [] 0
        (fun _ => false)).resp =
       (testimonial_post sampleReq validTestimonialPayload [] 0
        (fun _ => true)).resp ∧
     (testimonial_post sampleReq validTestimonialPayload [] 0
        (fun _ => false)).db =
       (testimonial_post sampleReq validTestimonialPayload [] 0
        (fun _ => true)).db ∧
     (testimonial_post sampleReq validTestimonialPayload [] 0
        (fun _ => false)).resp.status = 201 ∧
     (testimonial_post sampleReq validTestimonialPayload [] 0
        (fun _ => false)).resp.body_id =
       some (mkTestimonialSubmission sampleReq validTestimonialPayload [] 0).id ∧
     (testimonial_post sampleReq validTestimonialPayload [] 0
        (fun _ => false)).db =
       [] ++ [mkTestimonialSubmission sampleReq validTestimonialPayload [] 0] ∧
     (testimonial_post sampleReq validTestimonialPayload [] 0
        (fun _ => false)).mail.length = 2) :=
  C8_notification_failure_invisible sampleReq 0 (fun _ => false)
    (fun _ => true) validContactPayload [] "a@b.com" [] [openPosition]
    "backend-developer" openPosition validJobAppPayload []
    validTestimonialPayload [] (by decide) (by decide) (by decide)
    (by decide)

/-- Evaluation of the slug derivation on the title Hello World!!:
lowercased, punctuation stripped, the space turned into a hyphen. -/
theorem slugify_helloWorld : slugify "Hello World!!" = "hello-world" := by
  decide

/-- C2: creating a blog post titled Hello World!! with no slug stores
slug hello-world, and creating a second post with the identical title
and no slug is rejected by the storage layer's UNIQUE constraint on
slug — there is no disambiguation-suffix renaming. -/
theorem C2_slug_derivation_and_collision (db : List BlogPost)
    (now1 now2 : Nat) (h : ∀ q ∈ db, q.slug ≠ "hello-world") :
    createBlogPost db "Hello World!!" now1 =
      Except.ok (db ++ [helloPost db now1]) ∧
    (helloPost db now1).slug = "hello-world" ∧
    (helloPost db now1).title = "Hello World!!" ∧
    createBlogPost (db ++ [helloPost db now1]) "Hello World!!" now2 =
      Except.error "UNIQUE constraint failed: blog_posts.slug" := by
  have hslug : ∀ (dbx : List BlogPost) (nx : Nat),
      (helloPost dbx nx).slug = "hello-world" := by
    intro dbx nx
    simp [helloPost, blogSave, newBlogPost, slugify_helloWorld]
  have hany : db.any (fun q => q.slug == (helloPost db now1).slug) = false := by
    rw [List.any_eq_false]
    intro q hq
    rw [hslug]
    simp [h q hq]
  refine ⟨?_, hslug db now1, ?_, ?_⟩
  · have e1 : createBlogPost db "Hello World!!" now1 =
        (if db.any (fun q => q.slug == (helloPost db now1).slug) then
          Except.error "UNIQUE constraint failed: blog_posts.slug"
        else Except.ok (db ++ [helloPost db now1])) := rfl
    rw [e1, hany]
    simp
  · simp [helloPost, blogSave, newBlogPost]
  · have e2 : createBlogPost (db ++ [helloPost db now1]) "Hello World!!" now2 =
        (if (db ++ [helloPost db now1]).any (fun q => q.slug ==
            (helloPost (db ++ [helloPost db now1]) now2).slug) then
          Except.error "UNIQUE constraint failed: blog_posts.slug"
        else Except.ok ((db ++ [helloPost db now1]) ++
          [helloPost (db ++ [helloPost db now1]) now2])) := rfl
    have hany2 : (db ++ [helloPost db now1]).any (fun q => q.slug ==
        (helloPost (db ++ [helloPost db now1]) now2).slug) = true := by
      rw [List.any_eq_true]
      refine ⟨helloPost db now1, ?_, ?_⟩
      · exact List.mem_append_right db (List.mem_singleton_self _)
      · rw [hslug, hslug]
        decide
    rw [e2, hany2]
    simp

/-- C2 witness: the statement over the empty table. -/
theorem C2_witness :
    createBlogPost [] "Hello World!!" 0 =
      Except.ok ([] ++ [helloPost [] 0]) ∧
    (helloPost [] 0).slug = "hello-world" ∧
    (helloPost [] 0).title = "Hello World!!" ∧
    createBlogPost ([] ++ [helloPost [] 0]) "Hello World!!" 1 =
      Except.error "UNIQUE constraint failed: blog_posts.slug" :=
  C2_slug_derivation_and_collision [] 0 1 (by simp)

/-- A blog post whose status is not published, its slug unique in the
table, is a 404 for an anonymous detail GET and a 200 with the record
for an authenticated admin/editor (BlogPostDetailView.get_queryset). -/
theorem blog_detail_status_gate (db : List BlogPost) (p : BlogPost)
    (s : String) (u : AppUser) (hp : p ∈ db) (hslug : p.slug = s)
    (hstatus : p.status ≠ "published")
    (huniq : ∀ q ∈ db, q.slug = s → q = p)
    (hauth : u.is_authenticated = true) (heditor : u.is_editor = true) :
    (blog_detail_get anonUser db s).status = 404 ∧
    (blog_detail_get u db s).status = 200 ∧
    (blog_detail_get u db s).body = some p := by
  have hv : blogVisible anonUser db =
      db.filter (fun q => q.status == "published") := rfl
  have hv2 : blogVisible u db = db := by
    simp [blogVisible, hauth, heditor]
  refine ⟨?_, ?_⟩
  · cases hf : (db.filter (fun q => q.status == "published")).find?
        (fun q => q.slug == s) with
    | none => simp [blog_detail_get, hv, hf]
    | some q =>
        exfalso
        have hqmem := List.mem_of_find?_eq_some hf
        have hqpred := List.find?_some hf
        rw [List.mem_filter] at hqmem
        have hqs : q.slug = s := by simpa using hqpred
        have hqp := huniq q hqmem.1 hqs
        have hpub : p.status = "published" := by
          rw [← hqp]
          simpa using hqmem.2
        exact hstatus hpub
  · have hex : ∃ r, db.find? (fun q => q.slug == s) = some r := by
      have hsome : (db.find? (fun q => q.slug == s)).isSome := by
        rw [List.find?_isSome]
        exact ⟨p, hp, by simp [hslug]⟩
      exact Option.isSome_iff_exists.mp hsome
    obtain ⟨r, hr⟩ := hex
    have hrp : r = p := huniq r (List.mem_of_find?_eq_some hr)
      (by simpa using List.find?_some hr)
    constructor
    · simp [blog_detail_get, hv2, hr]
    · simp [blog_detail_get, hv2, hr, hrp]

/-- C6: claimed for every published-content entity that a non-public
record is invisible (404) to anonymous detail GETs.  Only the blog
detail view filters its queryset by status: the product and job-position
detail views (like the portfolio and course ones) serve the unfiltered
table under AllowAny, so an anonymous GET of an archived product or of a
closed job position answers 200 with the record, not 404. -/
theorem C6_counterexample :
    archivedProduct.status ≠ "live" ∧
    (product_detail_get [archivedProduct] "old-tool").status = 200 ∧
    (product_detail_get [archivedProduct] "old-tool").status ≠ 404 ∧
    (product_detail_get [archivedProduct] "old-tool").body =
      some archivedProduct ∧
    closedPosition.status ≠ "open" ∧
    (job_position_detail_get [closedPosition] "frontend-developer").status
      = 200 ∧
    (job_position_detail_get [closedPosition] "frontend-developer").body =
      some closedPosition := by
  decide

/-- C6 (amended): only the blog-post detail endpoint hides non-public
records — a blog post whose status is not published (its slug unique in
the table) is a 404 for an anonymous GET and a 200 with the record for
an authenticated admin/editor — while the product, job-position,
portfolio-project and course detail endpoints serve their records to any
caller, anonymous included, with 200 regardless of status. -/
theorem C6_status_gating_blog_only (db : List BlogPost) (p : BlogPost)
    (s : String) (u : AppUser)
    (dbP : List Product) (pr : Product) (sP : String)
    (dbJ : List JobPosition) (pj : JobPosition) (sJ : String)
    (dbF : List PortfolioProject) (pf : PortfolioProject) (sF : String)
    (dbC : List Course) (cr : Course) (sC : String)
    (hp : p ∈ db) (hslug : p.slug = s)
    (hstatus : p.status ≠ "published")
    (huniq : ∀ q ∈ db, q.slug = s → q = p)
    (hauth : u.is_authenticated = true) (heditor : u.is_editor = true)
    (hprMem : pr ∈ dbP) (hprSlug : pr.slug = sP)
    (hprUniq : ∀ q ∈ dbP, q.slug = sP → q = pr)
    (hpjMem : pj ∈ dbJ) (hpjSlug : pj.slug = sJ)
    (hpjUniq : ∀ q ∈ dbJ, q.slug = sJ → q = pj)
    (hpfMem : pf ∈ dbF) (hpfSlug : pf.slug = sF)
    (hpfUniq : ∀ q ∈ dbF, q.slug = sF → q = pf)
    (hcrMem : cr ∈ dbC) (hcrSlug : cr.slug = sC)
    (hcrUniq : ∀ q ∈ dbC, q.slug = sC → q = cr) :
    (blog_detail_get anonUser db s).status = 404 ∧
    (blog_detail_get u db s).status = 200 ∧
    (blog_detail_get u db s).body = some p ∧
    product_detail_get dbP sP = { status := 200, body := some pr } ∧
    job_position_detail_get dbJ sJ = { status := 200, body := some pj } ∧
    portfolio_project_detail_get dbF sF =
      { status := 200, body := some pf } ∧
    course_detail_get dbC sC = { status := 200, body := some cr } := by
  obtain ⟨hb1, hb2, hb3⟩ :=
    blog_detail_status_gate db p s u hp hslug hstatus huniq hauth heditor
  refine ⟨hb1, hb2, hb3, ?_, ?_, ?_, ?_⟩
  · obtain ⟨r, hr⟩ : ∃ r, dbP.find? (fun q => q.slug == sP) = some r :=
      Option.isSome_iff_exists.mp (by
        rw [List.find?_isSome]
        exact ⟨pr, hprMem, by simp [hprSlug]⟩)
    have hrp : r = pr := hprUniq r (List.mem_of_find?_eq_some hr)
      (by simpa using List.find?_some hr)
    simp [product_detail_get, hr, hrp]
  · obtain ⟨r, hr⟩ : ∃ r, dbJ.find? (fun q => q.slug == sJ) = some r :=
      Option.isSome_iff_exists.mp (by
        rw [List.find?_isSome]
        exact ⟨pj, hpjMem, by simp [hpjSlug]⟩)
    have hrp : r = pj := hpjUniq r (List.mem_of_find?_eq_some hr)
      (by simpa using List.find?_some hr)
    simp [job_position_detail_get, hr, hrp]
  · obtain ⟨r, hr⟩ : ∃ r, dbF.find? (fun q => q.slug == sF) = some r :=
      Option.isSome_iff_exists.mp (by
        rw [List.find?_isSome]
        exact ⟨pf, hpfMem, by simp [hpfSlug]⟩)
    have hrp : r = pf := hpfUniq r (List.mem_of_find?_eq_some hr)
      (by simpa using List.find?_some hr)
    simp [portfolio_project_detail_get, hr, hrp]
  · obtain ⟨r, hr⟩ : ∃ r, dbC.find? (fun q => q.slug == sC) = some r :=
      Option.isSome_iff_exists.mp (by
        rw [List.find?_isSome]
        exact ⟨cr, hcrMem, by simp [hcrSlug]⟩)
    have hrp : r = cr := hcrUniq r (List.mem_of_find?_eq_some hr)
      (by simpa using List.find?_some hr)
    simp [course_detail_get, hr, hrp]

/-- C6 witness: the amended statement at a concrete draft blog post
(anonymous versus editor) and concrete archived or closed records on the
four ungated detail endpoints. -/
theorem C6_gating_witness :
    (blog_detail_get anonUser [draftPost] "wip").status = 404 ∧
    (blog_detail_get editorUser [draftPost] "wip").status = 200 ∧
    (blog_detail_get editorUser [draftPost] "wip").body = some draftPost ∧
    product_detail_get [archivedProduct] "old-tool" =
      { status := 200, body := some archivedProduct } ∧
    job_position_detail_get [closedPosition] "frontend-developer" =
      { status := 200, body := some closedPosition } ∧
    portfolio_project_detail_get [archivedProject] "legacy-site" =
      { status := 200, body := some archivedProject } ∧
    course_detail_get [archivedCourse] "old-course" =
      { status := 200, body := some archivedCourse } :=
  C6_status_gating_blog_only [draftPost] draftPost "wip" editorUser
    [archivedProduct] archivedProduct "old-tool"
    [closedPosition] closedPosition "frontend-developer"
    [archivedProject] archivedProject "legacy-site"
    [archivedCourse] archivedCourse "old-course"
    (by decide) (by decide) (by decide) (by decide) (by decide) (by decide)
    (by decide) (by decide) (by decide) (by decide) (by decide) (by decide)
    (by decide) (by decide) (by decide) (by decide) (by decide) (by decide)

/-- Every subscribe call with an email present answers 201, whatever the
table holds (fresh insert, already-active reuse, or reactivation). -/
theorem newsletter_always_201 (req : RequestMeta) (email : String)
    (db : List Subscription) (now : Nat) (mailer : String → Bool) :
    (newsletter_post req (some email) db now mailer).resp.status = 201 := by
  cases hf : db.find? (fun s => s.email == email) with
  | none => simp [newsletter_post, hf]
  | some s => by_cases ha : s.is_active <;> simp [newsletter_post, hf, ha]

/-- One subscribe call over a table respecting the unique-email
constraint leaves exactly one row holding the email. -/
theorem subscribeStep_count_one (req : RequestMeta) (email : String)
    (now : Nat) (mailer : String → Bool) (db : List Subscription)
    (h : countEmail db email ≤ 1) :
    countEmail (subscribeStep req email now mailer db) email = 1 := by
  cases hf : db.find? (fun s => s.email == email) with
  | none =>
      have h0 : countEmail db email = 0 := by
        unfold countEmail
        rw [List.countP_eq_zero]
        exact List.find?_eq_none.mp hf
      have hstep : subscribeStep req email now mailer db =
          db ++ [mkSubscription req email now] := by
        simp [subscribeStep, newsletter_post, hf]
      rw [hstep]
      unfold countEmail at h0 ⊢
      rw [List.countP_append, h0]
      simp [mkSubscription]
  | some s =>
      have hmem := List.mem_of_find?_eq_some hf
      have hpred := List.find?_some hf
      have h1 : 0 < countEmail db email := by
        unfold countEmail
        rw [List.countP_pos_iff]
        exact ⟨s, hmem, hpred⟩
      have heq : countEmail db email = 1 := by omega
      by_cases ha : s.is_active
      · have hstep : subscribeStep req email now mailer db = db := by
          simp [subscribeStep, newsletter_post, hf, ha]
        rw [hstep, heq]
      · have hstep : subscribeStep req email now mailer db =
            db.map (fun t => if t.email == email then
              { s with is_active := true, unsubscribed_at := none } else t) := by
          simp [subscribeStep, newsletter_post, hf, ha]
        rw [hstep]
        unfold countEmail at heq ⊢
        rw [List.countP_map, ← heq]
        refine List.countP_congr ?_
        intro t ht
        by_cases hte : t.email == email <;>
          simp [Function.comp, hte, hpred]

/-- After one subscribe call an active row holding the email is in the
table. -/
theorem subscribeStep_active_mem (req : RequestMeta) (email : String)
    (now : Nat) (mailer : String → Bool) (db : List Subscription) :
    ∃ t ∈ subscribeStep req email now mailer db,
      t.email = email ∧ t.is_active = true := by
  cases hf : db.find? (fun s => s.email == email) with
  | none =>
      refine ⟨mkSubscription req email now, ?_, rfl, rfl⟩
      simp [subscribeStep, newsletter_post, hf]
  | some s =>
      have hmem := List.mem_of_find?_eq_some hf
      have hpred := List.find?_some hf
      have hse : s.email = email := by simpa using hpred
      by_cases ha : s.is_active
      · refine ⟨s, ?_, hse, ha⟩
        simpa [subscribeStep, newsletter_post, hf, ha] using hmem
      · refine ⟨{ s with is_active := true, unsubscribed_at := none },
          ?_, hse, rfl⟩
        have hstep : subscribeStep req email now mailer db =
            db.map (fun t => if t.email == email then
              { s with is_active := true, unsubscribed_at := none } else t) := by
          simp [subscribeStep, newsletter_post, hf, ha]
        rw [hstep]
        refine List.mem_map.mpr ⟨s, hmem, ?_⟩
        simp [hse]

/-- One subscribe call grows the table by at most one row. -/
theorem subscribeStep_len_le (req : RequestMeta) (email : String)
    (now : Nat) (mailer : String → Bool) (db : List Subscription) :
    (subscribeStep req email now mailer db).length ≤ db.length + 1 := by
  cases hf : db.find? (fun s => s.email == email) with
  | none => simp [subscribeStep, newsletter_post, hf]
  | some s => by_cases ha : s.is_active <;>
      simp [subscribeStep, newsletter_post, hf, ha]

/-- A subscribe call over a table already holding the email does not
grow the table. -/
theorem subscribeStep_len_of_pos (req : RequestMeta) (email : String)
    (now : Nat) (mailer : String → Bool) (db : List Subscription)
    (h : 0 < countEmail db email) :
    (subscribeStep req email now mailer db).length = db.length := by
  have hex : ∃ s, db.find? (fun t => t.email == email) = some s := by
    have hsome : (db.find? (fun t => t.email == email)).isSome := by
      rw [List.find?_isSome]
      unfold countEmail at h
      exact List.countP_pos_iff.mp h
    exact Option.isSome_iff_exists.mp hsome
  obtain ⟨s, hf⟩ := hex
  by_cases ha : s.is_active <;>
    simp [subscribeStep, newsletter_post, hf, ha]

/-- Under the unique-email constraint two rows of the table holding the
same email are the same row. -/
theorem countEmail_le_one_unique (db : List Subscription) (email : String)
    (h : countEmail db email ≤ 1) (r s : Subscription) (hr : r ∈ db)
    (hrE : r.email = email) (hs : s ∈ db) (hsE : s.email = email) :
    r = s := by
  have h1 : 0 < countEmail db email := by
    unfold countEmail
    rw [List.countP_pos_iff]
    exact ⟨r, hr, by simp [hrE]⟩
  have heq : countEmail db email = 1 := by omega
  unfold countEmail at heq
  rw [List.countP_eq_length_filter] at heq
  obtain ⟨x, hx⟩ := List.length_eq_one.mp heq
  have hrx : r ∈ [x] := hx ▸ List.mem_filter.mpr ⟨hr, by simp [hrE]⟩
  have hsx : s ∈ [x] := hx ▸ List.mem_filter.mpr ⟨hs, by simp [hsE]⟩
  simp only [List.mem_singleton] at hrx hsx
  rw [hrx, hsx]

/-- Subscribing an email whose unique row is inactive rewrites that row
in place — is_active set, unsubscribed_at cleared, every other field and
the table length unchanged — rather than inserting a duplicate. -/
theorem subscribeStep_reactivates (req : RequestMeta) (email : String)
    (now : Nat) (mailer : String → Bool) (db : List Subscription)
    (h : countEmail db email ≤ 1) (s : Subscription) (hs : s ∈ db)
    (hse : s.email = email) (hsa : s.is_active = false) :
    { s with is_active := true, unsubscribed_at := none } ∈
      subscribeStep req email now mailer db ∧
    (subscribeStep req email now mailer db).length = db.length := by
  have hex : ∃ r, db.find? (fun t => t.email == email) = some r := by
    have hsome : (db.find? (fun t => t.email == email)).isSome := by
      rw [List.find?_isSome]
      exact ⟨s, hs, by simp [hse]⟩
    exact Option.isSome_iff_exists.mp hsome
  obtain ⟨r, hf⟩ := hex
  have hrs : r = s := countEmail_le_one_unique db email h r s
    (List.mem_of_find?_eq_some hf) (by simpa using List.find?_some hf) hs hse
  rw [hrs] at hf
  have hstep : subscribeStep req email now mailer db =
      db.map (fun t => if t.email == email then
        { s with is_active := true, unsubscribed_at := none } else t) := by
    simp [subscribeStep, newsletter_post, hf, hsa]
  constructor
  · rw [hstep]
    refine List.mem_map.mpr ⟨s, hs, ?_⟩
    simp [hse]
  · rw [hstep]
    simp

/-- Any positive number of repeated subscribe calls leaves exactly one
row holding the email, and that row active. -/
theorem subscribeN_count_active (req : RequestMeta) (email : String)
    (now : Nat) (mailer : String → Bool) :
    ∀ (m : Nat) (db : List Subscription), countEmail db email ≤ 1 →
      countEmail (subscribeN req email now mailer (m + 1) db) email = 1 ∧
      ∃ t ∈ subscribeN req email now mailer (m + 1) db,
        t.email = email ∧ t.is_active = true := by
  intro m
  induction m with
  | zero =>
      intro db h
      exact ⟨subscribeStep_count_one req email now mailer db h,
        subscribeStep_active_mem req email now mailer db⟩
  | succ m ih =>
      intro db h
      have hc1 := subscribeStep_count_one req email now mailer db h
      exact ih (subscribeStep req email now mailer db) (by omega)

/-- Repeated subscribe calls over a table already holding the email once
never change the table length. -/
theorem subscribeN_len_eq (req : RequestMeta) (email : String)
    (now : Nat) (mailer : String → Bool) :
    ∀ (m : Nat) (db : List Subscription), countEmail db email = 1 →
      (subscribeN req email now mailer m db).length = db.length := by
  intro m
  induction m with
  | zero => intro db _; rfl
  | succ m ih =>
      intro db h
      have hc1 := subscribeStep_count_one req email now mailer db (by omega)
      have hl := subscribeStep_len_of_pos req email now mailer db (by omega)
      calc (subscribeN req email now mailer (m + 1) db).length
          = (subscribeStep req email now mailer db).length :=
            ih (subscribeStep req email now mailer db) hc1
        _ = db.length := hl

/-- C5: newsletter subscription is idempotent — over a table respecting
the unique-email constraint, every one of n ≥ 1 repeated subscribe calls
for the email answers 201, at most one row holding the email ever exists
(exactly one afterwards, table grown by at most one row), that row is
active, and a pre-existing inactive row is reactivated in place
(is_active set, unsubscribed_at cleared) rather than duplicated. -/
theorem C5_subscribe_idempotent (req : RequestMeta) (email : String)
    (now : Nat) (mailer : String → Bool) (db : List Subscription)
    (n k : Nat) (hn : 1 ≤ n) (hk : k < n)
    (h : countEmail db email ≤ 1) :
    (newsletter_post req (some email)
      (subscribeN req email now mailer k db) now mailer).resp.status = 201 ∧
    countEmail (subscribeN req email now mailer n db) email = 1 ∧
    (subscribeN req email now mailer n db).length ≤ db.length + 1 ∧
    (∃ t ∈ subscribeN req email now mailer n db,
      t.email = email ∧ t.is_active = true) ∧
    (∀ s ∈ db, s.email = email → s.is_active = false →
      { s with is_active := true, unsubscribed_at := none } ∈
        subscribeStep req email now mailer db ∧
      (subscribeStep req email now mailer db).length = db.length) := by
  obtain ⟨m, rfl⟩ : ∃ m, n = m + 1 := ⟨n - 1, by omega⟩
  obtain ⟨hcnt, hact⟩ := subscribeN_count_active req email now mailer m db h
  refine ⟨newsletter_always_201 req email _ now mailer, hcnt, ?_, hact, ?_⟩
  · have hc1 := subscribeStep_count_one req email now mailer db h
    have hlen := subscribeN_len_eq req email now mailer m
      (subscribeStep req email now mailer db) hc1
    have hle := subscribeStep_len_le req email now mailer db
    calc (subscribeN req email now mailer (m + 1) db).length
        = (subscribeStep req email now mailer db).length := hlen
      _ ≤ db.length + 1 := hle
  · intro s hs hse hsa
    exact subscribeStep_reactivates req email now mailer db h s hs hse hsa

/-- C5 witness: three repeated subscribe calls for an email whose single
stored row is inactive. -/
theorem C5_witness :
    (newsletter_post sampleReq (some "a@b.com")
      (subscribeN sampleReq "a@b.com" 7 (fun _ => true) 2 [inactiveSub]) 7
      (fun _ => true)).resp.status = 201 ∧
    countEmail (subscribeN sampleReq "a@b.com" 7 (fun _ => true) 3
      [inactiveSub]) "a@b.com" = 1 ∧
    (subscribeN sampleReq "a@b.com" 7 (fun _ => true) 3
      [inactiveSub]).length ≤ [inactiveSub].length + 1 ∧
    (∃ t ∈ subscribeN sampleReq "a@b.com" 7 (fun _ => true) 3 [inactiveSub],
      t.email = "a@b.com" ∧ t.is_active = true) ∧
    (∀ s ∈ [inactiveSub], s.email = "a@b.com" → s.is_active = false →
      { s with is_active := true, unsubscribed_at := none } ∈
        subscribeStep sampleReq "a@b.com" 7 (fun _ => true) [inactiveSub] ∧
      (subscribeStep sampleReq "a@b.com" 7 (fun _ => true)
        [inactiveSub]).length = [inactiveSub].length) :=
  C5_subscribe_idempotent sampleReq "a@b.com" 7 (fun _ => true)
    [inactiveSub] 3 2 (by decide) (by decide) (by decide)
